import Mathlib

/-!
Verification development for the MedicalLib physiological simulation.

The C++ sources are shallowly embedded over `ℚ` (exact rational arithmetic in
place of IEEE doubles; every operation the embedded code performs is
`+ - * / min max` and comparisons, so the embedding is exact up to floating
point rounding).  Calls to the process-wide random generator
(`getFluctuation`) are modelled by explicit noise parameters threaded into
each update, and the transcendental library calls are modelled by oracle
parameters: `sinPiQ x` stands for `sin(M_PI * x)` and `expQ x` for `exp(x)`.
Ring buffers (`std::deque` with `push_front` / conditional `pop_back`) are
modelled as newest-first lists.
-/

namespace MedicalLib

/-- `std::clamp(x, lo, hi)` (for `lo ≤ hi`). -/
def clampQ (x lo hi : ℚ) : ℚ := max lo (min x hi)

/-- `push_front` followed by `pop_back` when the buffer exceeds `cap`
(the shared history-buffer idiom of Heart/Brain/Lungs). -/
def pushHistory (cap : ℕ) (x : ℚ) (hist : List ℚ) : List ℚ :=
  let grown := x :: hist
  if grown.length > cap then grown.dropLast else grown

theorem clampQ_le_hi (x lo hi : ℚ) (h : lo ≤ hi) : clampQ x lo hi ≤ hi := by
  simp only [clampQ, max_le_iff]
  exact ⟨h, min_le_right _ _⟩

theorem lo_le_clampQ (x lo hi : ℚ) : lo ≤ clampQ x lo hi := le_max_left _ _

theorem pushHistory_length_le (cap : ℕ) (x : ℚ) (hist : List ℚ)
    (h : hist.length ≤ cap) : (pushHistory cap x hist).length ≤ cap := by
  simp only [pushHistory]
  split
  · rw [List.length_dropLast, List.length_cons]
    omega
  · simp only [List.length_cons] at *
    omega

theorem pushHistory_head (cap : ℕ) (x : ℚ) (hist : List ℚ)
    (hcap : 1 ≤ cap) : (pushHistory cap x hist).head? = some x := by
  simp only [pushHistory]
  split
  · rename_i hlen
    cases hist with
    | nil => simp [List.length_cons] at hlen; omega
    | cons y ys => simp [List.dropLast]
  · rfl

/-! ## Blood (src/include/MedicalLib/Patient.h) -/

structure BloodPressure where
  systolic_mmHg : ℚ
  diastolic_mmHg : ℚ
deriving Repr, DecidableEq

structure Blood where
  bloodPressure : BloodPressure
  oxygenSaturation : ℚ
  co2PartialPressure_mmHg : ℚ
  glucose_mg_per_dL : ℚ
  angiotensin_au : ℚ
  toxins_au : ℚ
deriving Repr, DecidableEq

/-- Default-constructed `Blood` (field initializers in Patient.h). -/
def Blood.init : Blood :=
  { bloodPressure := { systolic_mmHg := 120, diastolic_mmHg := 80 }
    oxygenSaturation := 98
    co2PartialPressure_mmHg := 40
    glucose_mg_per_dL := 100
    angiotensin_au := 0
    toxins_au := 0 }

/-! ## Gallbladder (src/src/Gallbladder.cpp) -/

inductive GallbladderState where
  | STORING
  | CONTRACTING
deriving Repr, DecidableEq

structure Gallbladder where
  currentState : GallbladderState
  storedBile_mL : ℚ
  bileConcentrationFactor : ℚ
  bileReleaseRate_ml_per_s : ℚ
deriving Repr, DecidableEq

/-- `const double capacity_mL = 50.0;` (Gallbladder.h). -/
def Gallbladder.capacity_mL : ℚ := 50

/-- Gallbladder constructor. -/
def Gallbladder.init : Gallbladder :=
  { currentState := .STORING
    storedBile_mL := 30
    bileConcentrationFactor := 5
    bileReleaseRate_ml_per_s := 2 }

/-- `Gallbladder::releaseBile(deltaTime_s)`; returns the released amount
together with the mutated organ. -/
def Gallbladder.releaseBile (g : Gallbladder) (deltaTime_s : ℚ) :
    ℚ × Gallbladder :=
  if g.storedBile_mL ≤ 0 then
    (0, g)
  else
    let amountToRelease :=
      min (g.bileReleaseRate_ml_per_s * deltaTime_s) g.storedBile_mL
    (amountToRelease,
      { g with
        currentState := .CONTRACTING
        storedBile_mL := g.storedBile_mL - amountToRelease })

/-- `Gallbladder::storeBile(volume_mL)`. -/
def Gallbladder.storeBile (g : Gallbladder) (volume_mL : ℚ) : Gallbladder :=
  if g.currentState = .STORING then
    { g with
      storedBile_mL := clampQ (g.storedBile_mL + volume_mL) 0
        Gallbladder.capacity_mL }
  else g

/-! ## Bladder (src/src/Bladder.cpp) -/

inductive MicturitionState where
  | FILLING
  | FULL
  | VOIDING
deriving Repr, DecidableEq

structure Bladder where
  currentState : MicturitionState
  currentVolume_mL : ℚ
  pressure_cmH2O : ℚ
  internalSphincterClosed : Bool
deriving Repr, DecidableEq

/-- `const double capacity_mL = 500.0;` (Bladder.h). -/
def Bladder.capacity_mL : ℚ := 500

/-- `const double pressureThreshold_cmH2O = 40.0;` (Bladder.h). -/
def Bladder.pressureThreshold_cmH2O : ℚ := 40

/-- Bladder constructor. -/
def Bladder.init : Bladder :=
  { currentState := .FILLING
    currentVolume_mL := 50
    pressure_cmH2O := 5
    internalSphincterClosed := true }

/-- `Bladder::addUrine(amount_ml)`. -/
def Bladder.addUrine (b : Bladder) (amount_ml : ℚ) : Bladder :=
  if b.currentState ≠ .VOIDING then
    { b with
      currentVolume_mL :=
        clampQ (b.currentVolume_mL + amount_ml) 0 Bladder.capacity_mL }
  else b

/-! ## Stomach (src/src/Stomach.cpp) -/

inductive GastricState where
  | EMPTY
  | FILLING
  | DIGESTING
  | EMPTYING
deriving Repr, DecidableEq

structure Stomach where
  currentState : GastricState
  currentVolume_mL : ℚ
  currentPh : ℚ
  gastricJuiceSecretionRate_ml_per_s : ℚ
  emptyingRate_ml_per_s : ℚ
deriving Repr, DecidableEq

/-- `const double capacity_mL = 1500.0;` (Stomach.h). -/
def Stomach.capacity_mL : ℚ := 1500

/-- Stomach constructor. -/
def Stomach.init : Stomach :=
  { currentState := .EMPTY
    currentVolume_mL := 0
    currentPh := 4.5
    gastricJuiceSecretionRate_ml_per_s := 0.1
    emptyingRate_ml_per_s := 0.5 }

/-- `Stomach::addSubstance(volume_mL)`. -/
def Stomach.addSubstance (s : Stomach) (volume_mL : ℚ) : Stomach :=
  { s with
    currentVolume_mL := s.currentVolume_mL + volume_mL
    currentPh := min 4 (s.currentPh + 0.5)
    currentState := .FILLING }

/-! ## Intestines (src/src/Intestines.cpp) -/

structure DigestiveEnzymes where
  volume_mL : ℚ
  amylase_U_per_L : ℚ
  lipase_U_per_L : ℚ
deriving Repr, DecidableEq

structure IntestinalSegment where
  length_m : ℚ
  motility : ℚ
  nutrientAbsorptionRate : ℚ
  waterAbsorptionRate : ℚ
deriving Repr, DecidableEq

structure Intestines where
  chymeVolume_mL : ℚ
  bileVolume_mL : ℚ
  enzymeVolume_mL : ℚ
  amylase_U_per_L : ℚ
  lipase_U_per_L : ℚ
  duodenum : IntestinalSegment
  jejunum : IntestinalSegment
  ileum : IntestinalSegment
  colon : IntestinalSegment
deriving Repr, DecidableEq

/-- Intestines constructor. -/
def Intestines.init : Intestines :=
  { chymeVolume_mL := 0
    bileVolume_mL := 0
    enzymeVolume_mL := 0
    amylase_U_per_L := 0
    lipase_U_per_L := 0
    duodenum := ⟨0.25, 1, 0.5, 0.1⟩
    jejunum := ⟨2.5, 1, 1, 0.3⟩
    ileum := ⟨3, 1, 0.8, 0.5⟩
    colon := ⟨1.5, 0.5, 0.1, 1⟩ }

/-- `Intestines::receiveChyme(volume_mL)`. -/
def Intestines.receiveChyme (i : Intestines) (volume_mL : ℚ) : Intestines :=
  { i with chymeVolume_mL := i.chymeVolume_mL + volume_mL }

/-- `Intestines::receiveBile(volume_mL)`. -/
def Intestines.receiveBile (i : Intestines) (volume_mL : ℚ) : Intestines :=
  { i with bileVolume_mL := i.bileVolume_mL + volume_mL }

/-- `Intestines::receiveEnzymes(enzymes)`. -/
def Intestines.receiveEnzymes (i : Intestines) (enzymes : DigestiveEnzymes) :
    Intestines :=
  if enzymes.volume_mL ≤ 0 then i
  else
    let total_enzyme_vol := i.enzymeVolume_mL + enzymes.volume_mL
    { i with
      amylase_U_per_L :=
        (i.amylase_U_per_L * i.enzymeVolume_mL
          + enzymes.amylase_U_per_L * enzymes.volume_mL) / total_enzyme_vol
      lipase_U_per_L :=
        (i.lipase_U_per_L * i.enzymeVolume_mL
          + enzymes.lipase_U_per_L * enzymes.volume_mL) / total_enzyme_vol
      enzymeVolume_mL := total_enzyme_vol }

/-! ## Heart (src/src/Heart.cpp)

The `name` strings carried by chambers, valves and leads are reporting-only
and behaviorally inert; leads are represented positionally (the lead modifier
in `Heart::update` depends only on the lead's index in `leadNames`). -/

inductive ValveStatus where
  | OPEN
  | CLOSED
deriving Repr, DecidableEq

structure Valve where
  status : ValveStatus := .CLOSED
  stenosis : ℚ := 0
  regurgitation : ℚ := 0
deriving Repr, DecidableEq

inductive ChamberState where
  | SYSTOLE
  | DIASTOLE
deriving Repr, DecidableEq

structure Chamber where
  state : ChamberState := .DIASTOLE
  volume_mL : ℚ := 0
  pressure_mmHg : ℚ := 0
  endDiastolicVolume_mL : ℚ := 120
  endSystolicVolume_mL : ℚ := 50
deriving Repr, DecidableEq

structure Heart where
  heartRate : ℚ
  measuredHeartRate : ℚ
  numLeads : ℕ
  ekgData : List (List ℚ)
  ekgHistorySize : ℕ
  totalTime_s : ℚ
  cardiacCyclePosition_s : ℚ
  lastRPeakTime_s : ℚ
  rPeakDetectedInCycle : Bool
  ejectionFraction : ℚ
  leftAtrium : Chamber
  rightAtrium : Chamber
  leftVentricle : Chamber
  rightVentricle : Chamber
  mitralValve : Valve
  tricuspidValve : Valve
  aorticValve : Valve
  pulmonaryValve : Valve
deriving Repr, DecidableEq

/-- `Heart::Heart(id, numLeads)`: one empty EKG buffer per created lead
(`min(12, numLeads)` leads). -/
def Heart.init (numLeads : ℕ) : Heart :=
  { heartRate := 75
    measuredHeartRate := 75
    numLeads := numLeads
    ekgData := List.replicate (min 12 numLeads) []
    ekgHistorySize := 200
    totalTime_s := 0
    cardiacCyclePosition_s := 0
    lastRPeakTime_s := -1
    rPeakDetectedInCycle := false
    ejectionFraction := 0.55
    leftAtrium := {}
    rightAtrium := {}
    leftVentricle := {}
    rightVentricle := {}
    mitralValve := {}
    tricuspidValve := {}
    aorticValve := {}
    pulmonaryValve := {} }

/-- One source of randomness per `getFluctuation` call in `Heart::update`. -/
structure HeartNoise where
  hrFluct : ℚ
deriving Repr, DecidableEq

/-- The Gaussian pulse helper of Heart.cpp:
`exp(-0.5 * pow((x - mu) / sigma, 2))`, with `expQ` the exp oracle. -/
def gaussianQ (expQ : ℚ → ℚ) (x mu sigma : ℚ) : ℚ :=
  expQ (-(0.5) * ((x - mu) / sigma) ^ 2)

/-- `Heart::simulateEkgWaveform(timeInCycle)`. -/
def Heart.simulateEkgWaveform (expQ : ℚ → ℚ) (timeInCycle : ℚ) : ℚ :=
  0.15 * gaussianQ expQ timeInCycle 0.1 0.04
    + (-0.1) * gaussianQ expQ timeInCycle 0.2 0.02
    + 1 * gaussianQ expQ timeInCycle 0.22 0.02
    + (-0.25) * gaussianQ expQ timeInCycle 0.24 0.02
    + 0.3 * gaussianQ expQ timeInCycle 0.4 0.06

/-- `Heart::getAorticPressure()`. -/
def Heart.getAorticPressure (expQ : ℚ → ℚ) (h : Heart) : ℚ :=
  if h.aorticValve.status = .OPEN then
    h.leftVentricle.pressure_mmHg
  else
    80 + 40 * expQ (-h.cardiacCyclePosition_s)

/-- `Heart::setHeartRate(newRate_bpm)`: stores the supplied value with no
validation. -/
def Heart.setHeartRate (h : Heart) (newRate_bpm : ℚ) : Heart :=
  { h with heartRate := newRate_bpm }

/-- `double cycleDuration_s = 60.0 / heartRate;` — the cycle-duration
division performed at the top of `Heart::update`. -/
def cardiacCycleDuration (heartRate : ℚ) : ℚ := 60 / heartRate

/-- Lead attenuation ladder: `1.0 - index * 0.1` by lead index. -/
def leadModifier (i : ℕ) : ℚ := 1 - (i : ℚ) * 0.1

/-- The per-lead EKG push loop of `Heart::update`: each lead receives the
base voltage scaled by its index modifier, onto its bounded buffer. -/
def pushEkg (cap : ℕ) (baseVoltage : ℚ) : ℕ → List (List ℚ) → List (List ℚ)
  | _, [] => []
  | i, lead :: rest =>
      pushHistory cap (baseVoltage * leadModifier i) lead ::
        pushEkg cap baseVoltage (i + 1) rest

/-- The wrapped cardiac-cycle position after one `Heart::update` step
(mutation order of the source: add `dt`, then subtract one cycle duration
when the position exceeds it). -/
def Heart.postCyclePosition (noise : HeartNoise) (h : Heart)
    (deltaTime_s : ℚ) : ℚ :=
  let cycleDuration_s := cardiacCycleDuration (h.heartRate + noise.hrFluct)
  let cyclePosA := h.cardiacCyclePosition_s + deltaTime_s
  if cycleDuration_s < cyclePosA then cyclePosA - cycleDuration_s
  else cyclePosA

/-- `timeInCycle` as computed inside `Heart::update`. -/
def Heart.timeInCycleAfter (noise : HeartNoise) (h : Heart)
    (deltaTime_s : ℚ) : ℚ :=
  h.postCyclePosition noise deltaTime_s
    / cardiacCycleDuration (h.heartRate + noise.hrFluct)

/-- `Heart::update(patient, deltaTime_s)`.  `sinPiQ x` models
`sin(M_PI * x)`; the dead local `venousPressure` (never read) is omitted. -/
def Heart.update (sinPiQ expQ : ℚ → ℚ) (noise : HeartNoise) (blood : Blood)
    (h : Heart) (deltaTime_s : ℚ) : Heart × Blood :=
  -- Electrical simulation
  let totalTime_s := h.totalTime_s + deltaTime_s
  let heartRate := h.heartRate + noise.hrFluct
  let cycleDuration_s := cardiacCycleDuration heartRate
  let oldCyclePosition := h.cardiacCyclePosition_s
  let cyclePosA := h.cardiacCyclePosition_s + deltaTime_s
  let rPeakCycleTime := 0.22 * cycleDuration_s
  let rPeakHit := oldCyclePosition < rPeakCycleTime
    ∧ rPeakCycleTime ≤ cyclePosA ∧ h.rPeakDetectedInCycle = false
  let measuredHeartRate :=
    if rPeakHit ∧ 0 < h.lastRPeakTime_s then
      60 / (totalTime_s - h.lastRPeakTime_s)
    else h.measuredHeartRate
  let lastRPeakTime_s := if rPeakHit then totalTime_s else h.lastRPeakTime_s
  let rPeakDetectedA := if rPeakHit then true else h.rPeakDetectedInCycle
  let wrap := cycleDuration_s < cyclePosA
  let cardiacCyclePosition_s :=
    if wrap then cyclePosA - cycleDuration_s else cyclePosA
  let rPeakDetectedInCycle := if wrap then false else rPeakDetectedA
  let timeInCycle := cardiacCyclePosition_s / cycleDuration_s
  let baseVoltage := Heart.simulateEkgWaveform expQ timeInCycle
  let ekgData := pushEkg h.ekgHistorySize baseVoltage 0 h.ekgData
  -- Mechanical simulation
  let pulmonaryArteryPressure : ℚ := 20
  let aorticPressure := Heart.getAorticPressure expQ
    { h with cardiacCyclePosition_s := cardiacCyclePosition_s }
  -- Chamber states; the nested EDV/ESV capture guards are transcribed
  -- verbatim from the source (they compare oldCyclePosition in seconds and
  -- timeInCycle as a fraction, inside branches bounding timeInCycle).
  let atrialSystole := 0 ≤ timeInCycle ∧ timeInCycle < 0.15
  let leftAtriumState :=
    if atrialSystole then ChamberState.SYSTOLE else ChamberState.DIASTOLE
  let rightAtriumState :=
    if atrialSystole then ChamberState.SYSTOLE else ChamberState.DIASTOLE
  let endDiastolicVolume_mL :=
    if atrialSystole then
      (if oldCyclePosition < 0.15 ∧ 0.15 ≤ timeInCycle then
        h.leftVentricle.volume_mL
      else h.leftVentricle.endDiastolicVolume_mL)
    else h.leftVentricle.endDiastolicVolume_mL
  let ventricularSystole := 0.20 ≤ timeInCycle ∧ timeInCycle < 0.5
  let leftVentricleState :=
    if ventricularSystole then ChamberState.SYSTOLE else ChamberState.DIASTOLE
  let rightVentricleState :=
    if ventricularSystole then ChamberState.SYSTOLE else ChamberState.DIASTOLE
  let esvCapture :=
    ventricularSystole ∧ oldCyclePosition < 0.5 ∧ 0.5 ≤ timeInCycle
  let endSystolicVolume_mL :=
    if esvCapture then h.leftVentricle.volume_mL
    else h.leftVentricle.endSystolicVolume_mL
  let ejectionFraction :=
    if esvCapture ∧ 0 < endDiastolicVolume_mL then
      (endDiastolicVolume_mL - endSystolicVolume_mL) / endDiastolicVolume_mL
    else h.ejectionFraction
  -- Chamber pressures
  let leftAtriumPressure : ℚ :=
    if leftAtriumState = .SYSTOLE then 10 else 5
  let rightAtriumPressure : ℚ :=
    if rightAtriumState = .SYSTOLE then 7 else 2
  let leftVentriclePressure : ℚ :=
    if leftVentricleState = .SYSTOLE then
      125 * sinPiQ ((timeInCycle - 0.2) / 0.3)
    else 5
  let rightVentriclePressure : ℚ :=
    if rightVentricleState = .SYSTOLE then
      25 * sinPiQ ((timeInCycle - 0.2) / 0.3)
    else 2
  -- Valve status
  let tricuspidStatus :=
    if rightAtriumPressure > rightVentriclePressure then ValveStatus.OPEN
    else ValveStatus.CLOSED
  let mitralStatus :=
    if leftAtriumPressure > leftVentriclePressure then ValveStatus.OPEN
    else ValveStatus.CLOSED
  let pulmonaryStatus :=
    if rightVentriclePressure > pulmonaryArteryPressure then ValveStatus.OPEN
    else ValveStatus.CLOSED
  let aorticStatus :=
    if leftVentriclePressure > aorticPressure then ValveStatus.OPEN
    else ValveStatus.CLOSED
  -- Chamber volumes
  let flowRate := 500 * deltaTime_s
  let lvVolA :=
    if mitralStatus = .OPEN then h.leftVentricle.volume_mL + flowRate
    else h.leftVentricle.volume_mL
  let rvVolA :=
    if tricuspidStatus = .OPEN then h.rightVentricle.volume_mL + flowRate
    else h.rightVentricle.volume_mL
  let lvVolB := if aorticStatus = .OPEN then lvVolA - flowRate * 1.5 else lvVolA
  let rvVolB :=
    if pulmonaryStatus = .OPEN then rvVolA - flowRate * 1.5 else rvVolA
  let leftVentricleVolume := max 40 (min lvVolB 130)
  let rightVentricleVolume := max 40 (min rvVolB 130)
  -- Blood pressure
  let angiotensinEffect := blood.angiotensin_au * 2
  let systolic := 110 + (heartRate - 75) * 0.5 + angiotensinEffect
  let diastolic := 75 + (heartRate - 75) * 0.25 + angiotensinEffect
  ({ h with
      heartRate := heartRate
      measuredHeartRate := measuredHeartRate
      totalTime_s := totalTime_s
      cardiacCyclePosition_s := cardiacCyclePosition_s
      lastRPeakTime_s := lastRPeakTime_s
      rPeakDetectedInCycle := rPeakDetectedInCycle
      ejectionFraction := ejectionFraction
      ekgData := ekgData
      leftAtrium := { h.leftAtrium with
        state := leftAtriumState
        pressure_mmHg := leftAtriumPressure }
      rightAtrium := { h.rightAtrium with
        state := rightAtriumState
        pressure_mmHg := rightAtriumPressure }
      leftVentricle := { h.leftVentricle with
        state := leftVentricleState
        pressure_mmHg := leftVentriclePressure
        volume_mL := leftVentricleVolume
        endDiastolicVolume_mL := endDiastolicVolume_mL
        endSystolicVolume_mL := endSystolicVolume_mL }
      rightVentricle := { h.rightVentricle with
        state := rightVentricleState
        pressure_mmHg := rightVentriclePressure
        volume_mL := rightVentricleVolume }
      mitralValve := { h.mitralValve with status := mitralStatus }
      tricuspidValve := { h.tricuspidValve with status := tricuspidStatus }
      aorticValve := { h.aorticValve with status := aorticStatus }
      pulmonaryValve := { h.pulmonaryValve with status := pulmonaryStatus } },
    { blood with
      bloodPressure :=
        { systolic_mmHg := clampQ systolic 80 180
          diastolic_mmHg := clampQ diastolic 50 110 } })

/-! ## Lungs (src/src/Lungs.cpp) -/

inductive RespiratoryState where
  | INSPIRATION
  | EXPIRATION
  | PAUSE
deriving Repr, DecidableEq

structure LungLobe where
  volume : ℚ
  compliance : ℚ
deriving Repr, DecidableEq

structure Bronchus where
  resistance : ℚ
deriving Repr, DecidableEq

structure Lungs where
  respirationRate : ℚ
  oxygenSaturation : ℚ
  tidalVolume_mL : ℚ
  endTidalCO2_mmHg : ℚ
  peakInspiratoryPressure_cmH2O : ℚ
  totalLungCapacity_mL : ℚ
  currentState : RespiratoryState
  cyclePosition_s : ℚ
  totalTime_s : ℚ
  capnographyHistorySize : ℕ
  rightUpperLobe : LungLobe
  rightMiddleLobe : LungLobe
  rightLowerLobe : LungLobe
  leftUpperLobe : LungLobe
  leftLowerLobe : LungLobe
  mainBronchus : Bronchus
  capnographyData : List ℚ
deriving Repr, DecidableEq

/-- Lungs constructor. -/
def Lungs.init : Lungs :=
  { respirationRate := 16
    oxygenSaturation := 98
    tidalVolume_mL := 500
    endTidalCO2_mmHg := 40
    peakInspiratoryPressure_cmH2O := 0
    totalLungCapacity_mL := 6000
    currentState := .PAUSE
    cyclePosition_s := 0
    totalTime_s := 0
    capnographyHistorySize := 200
    rightUpperLobe := ⟨0, 0.1⟩
    rightMiddleLobe := ⟨0, 0.07⟩
    rightLowerLobe := ⟨0, 0.13⟩
    leftUpperLobe := ⟨0, 0.1⟩
    leftLowerLobe := ⟨0, 0.1⟩
    mainBronchus := ⟨0.8⟩
    capnographyData := [] }

/-- One source of randomness per `getFluctuation` call in a Lungs tick. -/
structure LungsNoise where
  spo2Fluct : ℚ
  etco2Fluct : ℚ
  capnoFluct : ℚ
deriving Repr, DecidableEq

/-- Truncation toward zero, as C's `fmod` quotient. -/
def qtrunc (q : ℚ) : ℤ := if q < 0 then ⌈q⌉ else ⌊q⌋

/-- `fmod(a, b)`. -/
def qfmod (a b : ℚ) : ℚ := a - b * (qtrunc (a / b) : ℚ)

/-- `Lungs::setRespirationRate(newRate_bpm)`. -/
def Lungs.setRespirationRate (l : Lungs) (newRate_bpm : ℚ) : Lungs :=
  { l with respirationRate := newRate_bpm }

/-- `Lungs::getPeakInspiratoryPressure()`. -/
def Lungs.getPeakInspiratoryPressure (l : Lungs) : ℚ :=
  l.peakInspiratoryPressure_cmH2O

/-- `Lungs::updateRespiratoryMechanics(deltaTime_s)`.  The dead local
`expirationDuration` (never read) is omitted. -/
def Lungs.updateRespiratoryMechanics (sinPiQ : ℚ → ℚ) (l : Lungs)
    (deltaTime_s : ℚ) : Lungs :=
  let cycleDuration_s := 60 / l.respirationRate
  let cyclePosA := l.cyclePosition_s + deltaTime_s
  let inspirationDuration := cycleDuration_s * 0.4
  let wrap := ¬cyclePosA ≤ inspirationDuration ∧ ¬cyclePosA ≤ cycleDuration_s
  let cyclePosition_s := if wrap then cyclePosA - cycleDuration_s else cyclePosA
  let currentState :=
    if cyclePosA ≤ inspirationDuration then RespiratoryState.INSPIRATION
    else if cyclePosA ≤ cycleDuration_s then RespiratoryState.EXPIRATION
    else RespiratoryState.INSPIRATION
  let totalCompliance := l.rightUpperLobe.compliance
    + l.rightMiddleLobe.compliance + l.rightLowerLobe.compliance
    + l.leftUpperLobe.compliance + l.leftLowerLobe.compliance
  let peakInspiratoryPressure_cmH2O :=
    if currentState = .INSPIRATION then
      15 * sinPiQ (cyclePosition_s / inspirationDuration)
    else 0
  let flowRate_mL_s :=
    if currentState = .INSPIRATION then
      (peakInspiratoryPressure_cmH2O / l.mainBronchus.resistance) * 100
        * totalCompliance
    else
      -(((l.tidalVolume_mL / 500) * 5) / l.mainBronchus.resistance) * 100
  let tidalVolume_mL :=
    clampQ (l.tidalVolume_mL + flowRate_mL_s * deltaTime_s) 0
      (l.totalLungCapacity_mL / 2)
  { l with
    cyclePosition_s := cyclePosition_s
    currentState := currentState
    peakInspiratoryPressure_cmH2O := peakInspiratoryPressure_cmH2O
    tidalVolume_mL := tidalVolume_mL }

/-- `Lungs::updateGasLevels(deltaTime_s)`. -/
def Lungs.updateGasLevels (noise : LungsNoise) (l : Lungs)
    (deltaTime_s : ℚ) : Lungs :=
  let ventilationFactor := (l.tidalVolume_mL / 500) * (l.respirationRate / 16)
  let targetSpo2 := 98 * clampQ ventilationFactor 0.9 1
  let oxygenSaturation :=
    clampQ (l.oxygenSaturation + 0.1 * (targetSpo2 - l.oxygenSaturation)
      * deltaTime_s + noise.spo2Fluct) 94 100
  let targetEtCO2 := 40 / clampQ ventilationFactor 0.8 1.2
  let endTidalCO2_mmHg :=
    clampQ (l.endTidalCO2_mmHg + 0.2 * (targetEtCO2 - l.endTidalCO2_mmHg)
      * deltaTime_s + noise.etco2Fluct) 35 50
  { l with
    oxygenSaturation := oxygenSaturation
    endTidalCO2_mmHg := endTidalCO2_mmHg }

/-- `Lungs::generateCapnographyValue()`; the fluctuation is used only in the
alveolar-plateau branch, matching the single `getFluctuation` call there. -/
def Lungs.generateCapnographyValue (capnoFluct : ℚ) (l : Lungs) : ℚ :=
  let cycleDuration_s := 60 / l.respirationRate
  let timeInCycle := qfmod l.cyclePosition_s cycleDuration_s
  let inspirationEnd := cycleDuration_s * 0.4
  let plateauStart := cycleDuration_s * 0.5
  let plateauEnd := cycleDuration_s * 0.8
  if l.currentState = .INSPIRATION then 0
  else if timeInCycle < plateauStart then
    l.endTidalCO2_mmHg * ((timeInCycle - inspirationEnd)
      / (plateauStart - inspirationEnd))
  else if timeInCycle < plateauEnd then
    l.endTidalCO2_mmHg + capnoFluct
  else
    l.endTidalCO2_mmHg * (1 - (timeInCycle - plateauEnd)
      / (cycleDuration_s - plateauEnd))

/-- The Lungs state just before the capnography push inside
`Lungs::update`: time advanced, mechanics and gas levels updated. -/
def Lungs.prePushState (sinPiQ : ℚ → ℚ) (noise : LungsNoise) (l : Lungs)
    (deltaTime_s : ℚ) : Lungs :=
  let l1 := { l with totalTime_s := l.totalTime_s + deltaTime_s }
  let l2 := l1.updateRespiratoryMechanics sinPiQ deltaTime_s
  l2.updateGasLevels noise deltaTime_s

/-- `Lungs::update(patient, deltaTime_s)`. -/
def Lungs.update (sinPiQ : ℚ → ℚ) (noise : LungsNoise) (blood : Blood)
    (l : Lungs) (deltaTime_s : ℚ) : Lungs × Blood :=
  let l3 := l.prePushState sinPiQ noise deltaTime_s
  let l4 := { l3 with
    capnographyData := pushHistory l3.capnographyHistorySize
      (l3.generateCapnographyValue noise.capnoFluct) l3.capnographyData }
  let ventilationFactor :=
    clampQ ((l4.tidalVolume_mL / 500) * (l4.respirationRate / 16)) 0.5 1.5
  let o2_gradient := l4.oxygenSaturation - blood.oxygenSaturation
  let oxygenSaturation :=
    clampQ (blood.oxygenSaturation + o2_gradient * 0.8 * ventilationFactor
      * deltaTime_s) 0 100
  let effectiveAlveolarCO2 := 40 / ventilationFactor
  let co2_gradient := blood.co2PartialPressure_mmHg - effectiveAlveolarCO2
  let co2PartialPressure_mmHg :=
    clampQ (blood.co2PartialPressure_mmHg - co2_gradient * 0.5 * deltaTime_s)
      0 200
  (l4, { blood with
    oxygenSaturation := oxygenSaturation
    co2PartialPressure_mmHg := co2PartialPressure_mmHg })

/-! ## SpinalCord (the fields of src/src/SpinalCord.cpp read by Brain) -/

inductive SignalStatus where
  | NORMAL
  | IMPAIRED
  | SEVERED
deriving Repr, DecidableEq

structure SpinalCord where
  motorPathwayStatus : SignalStatus
  sensoryPathwayStatus : SignalStatus
deriving Repr, DecidableEq

/-- `SpinalCord::getMotorPathwayStatus()`. -/
def SpinalCord.getMotorPathwayStatus (s : SpinalCord) : SignalStatus :=
  s.motorPathwayStatus

/-! ## Brain (src/src/Brain.cpp) -/

structure BrainRegion where
  activityLevel : ℚ
  bloodFlow : ℚ
deriving Repr, DecidableEq

structure Brain where
  gcsScore : ℤ
  gcsEye : ℤ
  gcsVerbal : ℤ
  gcsMotor : ℤ
  intracranialPressure_mmHg : ℚ
  cerebralPerfusionPressure_mmHg : ℚ
  meanArterialPressure_mmHg : ℚ
  totalTime_s : ℚ
  targetRespirationRate_bpm : ℚ
  targetHeartRate_bpm : ℚ
  eegHistorySize : ℕ
  frontalLobe : BrainRegion
  temporalLobe : BrainRegion
  parietalLobe : BrainRegion
  occipitalLobe : BrainRegion
  cerebellum : BrainRegion
  eegData : List ℚ
deriving Repr, DecidableEq

/-- Brain constructor. -/
def Brain.init : Brain :=
  { gcsScore := 15
    gcsEye := 4
    gcsVerbal := 5
    gcsMotor := 6
    intracranialPressure_mmHg := 10
    cerebralPerfusionPressure_mmHg := 80
    meanArterialPressure_mmHg := 90
    totalTime_s := 0
    targetRespirationRate_bpm := 16
    targetHeartRate_bpm := 75
    eegHistorySize := 200
    frontalLobe := ⟨0.8, 50⟩
    temporalLobe := ⟨0.7, 50⟩
    parietalLobe := ⟨0.7, 50⟩
    occipitalLobe := ⟨0.8, 55⟩
    cerebellum := ⟨0.6, 60⟩
    eegData := [] }

/-- One source of randomness per `getFluctuation` call in a Brain tick
(`mapFluct` is consumed only on the heart-absent branch, matching the
single call there). -/
structure BrainNoise where
  mapFluct : ℚ
  activityFluct : ℚ
  icpFluct : ℚ
  eegFluct : ℚ
deriving Repr, DecidableEq

/-- `Brain::generateEegValue()`: `sin(2π·10·t)` and `sin(2π·20·t)` are
`sinPiQ (20*t)` and `sinPiQ (40*t)`. -/
def Brain.generateEegValue (sinPiQ : ℚ → ℚ) (eegFluct : ℚ)
    (totalTime_s : ℚ) : ℚ :=
  (0.5 * sinPiQ (20 * totalTime_s) + 0.3 * sinPiQ (40 * totalTime_s)
    + eegFluct) * 20

/-- `Brain::updateActivity(deltaTime_s)`: only the frontal lobe fluctuates. -/
def Brain.updateActivity (activityFluct : ℚ) (b : Brain) : Brain :=
  { b with
    frontalLobe := { b.frontalLobe with
      activityLevel :=
        clampQ (b.frontalLobe.activityLevel + activityFluct) 0.7 0.9 } }

/-- `Brain::updatePressures(meanArterialPressure)`. -/
def Brain.updatePressures (icpFluct : ℚ) (b : Brain)
    (meanArterialPressure : ℚ) : Brain :=
  let intracranialPressure_mmHg :=
    clampQ (b.intracranialPressure_mmHg + icpFluct) 8 12
  { b with
    intracranialPressure_mmHg := intracranialPressure_mmHg
    cerebralPerfusionPressure_mmHg :=
      max 0 (meanArterialPressure - intracranialPressure_mmHg) }

/-- `Brain::updateAutonomicControl(patient, deltaTime_s)`: adjusts the two
autonomic target rates and writes them into Lungs/Heart when present. -/
def Brain.updateAutonomicControl (blood : Blood) (heart? : Option Heart)
    (lungs? : Option Lungs) (b : Brain) (deltaTime_s : ℚ) :
    Brain × Option Lungs × Option Heart :=
  let co2 := blood.co2PartialPressure_mmHg
  let o2 := blood.oxygenSaturation
  let co2_drive := max 0 (co2 - 40) * 0.5
  let o2_drive := max 0 (98 - o2) * 0.8
  let targetRate := 16 + co2_drive + o2_drive
  let targetRespirationRate_bpm :=
    clampQ (b.targetRespirationRate_bpm
      + (targetRate - b.targetRespirationRate_bpm) * 0.5 * deltaTime_s) 8 35
  let lungsOut := lungs?.map
    (fun l => l.setRespirationRate targetRespirationRate_bpm)
  let bp := blood.bloodPressure
  let meanArterialPressure :=
    bp.diastolic_mmHg + (bp.systolic_mmHg - bp.diastolic_mmHg) / 3
  let bp_error := 90 - meanArterialPressure
  let targetRate_hr := 75 + bp_error * 0.4
  let targetHeartRate_bpm :=
    clampQ (b.targetHeartRate_bpm
      + (targetRate_hr - b.targetHeartRate_bpm) * 0.4 * deltaTime_s) 50 160
  let heartOut := heart?.map (fun h => h.setHeartRate targetHeartRate_bpm)
  ({ b with
      targetRespirationRate_bpm := targetRespirationRate_bpm
      targetHeartRate_bpm := targetHeartRate_bpm },
    lungsOut, heartOut)

/-- `Brain::updateGCS(patient)`. -/
def Brain.updateGCS (blood : Blood) (spinal? : Option SpinalCord)
    (lungs? : Option Lungs) (b : Brain) : Brain :=
  let cpp := b.cerebralPerfusionPressure_mmHg
  let gcsEyeA : ℤ :=
    if blood.oxygenSaturation > 94 ∧ cpp > 60 then 4
    else if blood.oxygenSaturation > 90 ∧ cpp > 55 then 3
    else if blood.oxygenSaturation > 80 ∨ cpp > 50 then 2
    else 1
  let gcsVerbalA : ℤ :=
    if blood.co2PartialPressure_mmHg < 45 ∧ blood.oxygenSaturation > 94 then 5
    else if blood.co2PartialPressure_mmHg < 55 ∧ blood.oxygenSaturation > 90
      then 4
    else if blood.co2PartialPressure_mmHg < 65 ∨ blood.oxygenSaturation > 85
      then 3
    else if blood.co2PartialPressure_mmHg < 75 ∨ blood.oxygenSaturation > 75
      then 2
    else 1
  let gcsMotorA : ℤ :=
    if cpp > 60 ∧ blood.oxygenSaturation > 92 then 6
    else if cpp > 55 ∧ blood.oxygenSaturation > 88 then 5
    else if cpp > 50 ∨ blood.oxygenSaturation > 80 then 4
    else if cpp > 45 ∨ blood.oxygenSaturation > 70 then 3
    else if cpp > 40 ∨ blood.oxygenSaturation > 60 then 2
    else 1
  let gcsEyeB := if blood.toxins_au > 50 then min gcsEyeA 2 else gcsEyeA
  let gcsVerbalB :=
    if blood.toxins_au > 50 then min gcsVerbalA 3 else gcsVerbalA
  let gcsMotorB := if blood.toxins_au > 50 then min gcsMotorA 4 else gcsMotorA
  let gcsEyeC : ℤ := if blood.toxins_au > 80 then 1 else gcsEyeB
  let gcsVerbalC :=
    if blood.toxins_au > 80 then min gcsVerbalB 2 else gcsVerbalB
  let gcsMotorC := if blood.toxins_au > 80 then min gcsMotorB 3 else gcsMotorB
  let gcsMotorD : ℤ :=
    match spinal? with
    | some spinalCord =>
        if spinalCord.getMotorPathwayStatus ≠ .NORMAL then 1 else gcsMotorC
    | none => gcsMotorC
  let gcsVerbalD : ℤ :=
    match lungs? with
    | some lungs =>
        if lungs.getPeakInspiratoryPressure > 5 then 1 else gcsVerbalC
    | none => gcsVerbalC
  { b with
    gcsEye := gcsEyeC
    gcsVerbal := gcsVerbalD
    gcsMotor := gcsMotorD
    gcsScore := gcsEyeC + gcsVerbalD + gcsMotorD }

/-- `Brain::update(patient, deltaTime_s)`: returns the brain together with
the mutated blood and the (possibly written-to) Lungs and Heart. -/
def Brain.update (sinPiQ expQ : ℚ → ℚ) (noise : BrainNoise)
    (heart? : Option Heart) (spinal? : Option SpinalCord)
    (lungs? : Option Lungs) (blood : Blood) (b : Brain) (deltaTime_s : ℚ) :
    Brain × Blood × Option Lungs × Option Heart :=
  let totalTime_s := b.totalTime_s + deltaTime_s
  let meanArterialPressure_mmHg :=
    match heart? with
    | some heart => heart.getAorticPressure expQ
    | none =>
        clampQ (b.meanArterialPressure_mmHg + noise.mapFluct) 85 95
  let b1 := { b with
    totalTime_s := totalTime_s
    meanArterialPressure_mmHg := meanArterialPressure_mmHg }
  let b2 := b1.updateActivity noise.activityFluct
  let b3 := b2.updatePressures noise.icpFluct meanArterialPressure_mmHg
  let (b4, lungsOut, heartOut) :=
    b3.updateAutonomicControl blood heart? lungs? deltaTime_s
  let b5 := { b4 with
    eegData := pushHistory b4.eegHistorySize
      (Brain.generateEegValue sinPiQ noise.eegFluct totalTime_s) b4.eegData }
  let totalActivity := (b5.frontalLobe.activityLevel
    + b5.temporalLobe.activityLevel + b5.parietalLobe.activityLevel
    + b5.occipitalLobe.activityLevel + b5.cerebellum.activityLevel) / 5
  let bloodOut := { blood with
    oxygenSaturation :=
      blood.oxygenSaturation - 0.1 * totalActivity * deltaTime_s
    co2PartialPressure_mmHg :=
      blood.co2PartialPressure_mmHg + 0.08 * totalActivity * deltaTime_s }
  let b6 := b5.updateGCS bloodOut spinal? lungsOut
  (b6, bloodOut, lungsOut, heartOut)

/-! ## Kidneys (src/src/Kidneys.cpp) -/

structure Nephron where
  filtrationEfficiency : ℚ
  isDamaged : Bool
deriving Repr, DecidableEq

structure Kidneys where
  reninSecretionRate : ℚ
  gfr_mL_per_min : ℚ
  urineOutput_mL_per_s : ℚ
  bloodSodium_mEq_per_L : ℚ
  bloodPotassium_mEq_per_L : ℚ
  totalFiltrationCapacity : ℚ
  nephrons : List Nephron
deriving Repr, DecidableEq

/-- Kidneys constructor: 100 healthy representative nephrons. -/
def Kidneys.init : Kidneys :=
  { reninSecretionRate := 1
    gfr_mL_per_min := 125
    urineOutput_mL_per_s := 0.02
    bloodSodium_mEq_per_L := 140
    bloodPotassium_mEq_per_L := 4
    totalFiltrationCapacity := 1
    nephrons := List.replicate 100 ⟨1, false⟩ }

/-- One source of randomness per `getFluctuation` call in a Kidneys tick. -/
structure KidneysNoise where
  gfrFluct : ℚ
  urineFluct : ℚ
  sodiumFluct : ℚ
  potassiumFluct : ℚ
deriving Repr, DecidableEq

/-- The nephron-aggregation loop at the top of `Kidneys::update`: sum of
undamaged efficiencies divided by the population size. -/
def Kidneys.computeCapacity (nephrons : List Nephron) : ℚ :=
  (nephrons.foldl
    (fun acc n => if !n.isDamaged then acc + n.filtrationEfficiency else acc)
    0) / (nephrons.length : ℚ)

/-- The perfusion pressure read inside `Kidneys::update`: the Heart's aortic
pressure when one is present, else the assumed-normal 90 mmHg. -/
def kidneysPerfusionPressure (expQ : ℚ → ℚ) (heart? : Option Heart) : ℚ :=
  match heart? with
  | some heart => heart.getAorticPressure expQ
  | none => 90

/-- `double pressureModifier = std::clamp(perfusionPressure / 90.0, 0.5, 1.2);` -/
def kidneysPressureModifier (perfusionPressure : ℚ) : ℚ :=
  clampQ (perfusionPressure / 90) 0.5 1.2

/-- `Kidneys::update(patient, deltaTime_s)`: returns the kidneys together
with the (possibly written-to) Bladder. -/
def Kidneys.update (expQ : ℚ → ℚ) (noise : KidneysNoise)
    (heart? : Option Heart) (bladder? : Option Bladder) (blood : Blood)
    (k : Kidneys) (deltaTime_s : ℚ) : Kidneys × Option Bladder :=
  let totalFiltrationCapacity := Kidneys.computeCapacity k.nephrons
  let pressureModifier :=
    kidneysPressureModifier (kidneysPerfusionPressure expQ heart?)
  let baseline_gfr := 125 * totalFiltrationCapacity * pressureModifier
  let gfrA := k.gfr_mL_per_min
    + 0.1 * (baseline_gfr - k.gfr_mL_per_min) * deltaTime_s + noise.gfrFluct
  let urineA := gfrA / 60 * 0.01 + noise.urineFluct
  let bladderOut := bladder?.map (fun b => b.addUrine (urineA * deltaTime_s))
  let sodiumA := k.bloodSodium_mEq_per_L + noise.sodiumFluct
  let potassiumA := k.bloodPotassium_mEq_per_L + noise.potassiumFluct
  let bp := blood.bloodPressure
  let meanArterialPressure :=
    bp.diastolic_mmHg + (bp.systolic_mmHg - bp.diastolic_mmHg) / 3
  let reninA :=
    if meanArterialPressure < 85 then
      k.reninSecretionRate + (85 - meanArterialPressure) * 0.1 * deltaTime_s
    else
      k.reninSecretionRate - (k.reninSecretionRate - 1) * 0.05 * deltaTime_s
  ({ k with
      totalFiltrationCapacity := totalFiltrationCapacity
      gfr_mL_per_min := clampQ gfrA 90 150
      urineOutput_mL_per_s := clampQ urineA 0.01 0.03
      bloodSodium_mEq_per_L := clampQ sodiumA 135 145
      bloodPotassium_mEq_per_L := clampQ potassiumA 3.5 5
      reninSecretionRate := clampQ reninA 0.5 50 },
    bladderOut)

/-! ## Simulation driver

The spec's simulation driver iterates `organ.update(patient, dt)` over the
patient's ordered organ collection.  The `updatePatient` bodies present under
src/ (src/src/MedicalLib.cpp:26 and src/src/Patient.cpp:40) are stale
placeholder revisions written against a flat vital-signs `Patient` struct
without an organ collection (Patient.cpp even reads fields such as
`patient.heartRate` that do not exist on the organ-based `Patient` declared
in include/MedicalLib/Patient.h), so the organ-roster driver body itself is
not part of the sources; it is modelled from the spec below. -/

/-- A patient as the driver sees it: a shared record plus an ordered organ
collection (insertion order = update order). -/
structure SpecPatient (σ β : Type) where
  blood : β
  organs : List σ

/-- Sequentially perform one `update(patient, dt)` call per listed organ
index, threading the whole patient through (an organ's update may read and
write the shared record and other organs, Gauss-Seidel style). -/
def applyOrganCalls {σ β : Type}
    (update : ℕ → SpecPatient σ β → ℚ → SpecPatient σ β) (deltaTime_s : ℚ) :
    List ℕ → SpecPatient σ β → SpecPatient σ β
  | [], p => p
  | i :: rest, p =>
      applyOrganCalls update deltaTime_s rest (update i p deltaTime_s)

/-- Modelled from the spec: "`updatePatient(patient, dt)` = call
`organ.update(patient, dt)` for each organ in registration order."  The
organ-iterating driver body is missing from src/ (only its declaration in
include/MedicalLib/Patient.h and its caller examples/main.cpp are present;
the two `updatePatient` bodies under src/src are stale flat-vitals
placeholders). -/
def specUpdatePatient {σ β : Type}
    (update : ℕ → SpecPatient σ β → ℚ → SpecPatient σ β)
    (p : SpecPatient σ β) (deltaTime_s : ℚ) : SpecPatient σ β :=
  applyOrganCalls update deltaTime_s (List.range p.organs.length) p

/-! ## Claim predicates and iterated runs -/

/-- The C3 property text, as a predicate over the state and time step. -/
def ReleaseBileSpec (g : Gallbladder) (dt : ℚ) : Prop :=
  (g.storedBile_mL = 0 → g.releaseBile dt = (0, g)) ∧
  (0 < g.storedBile_mL →
    (g.releaseBile dt).2.currentState = .CONTRACTING ∧
    (g.releaseBile dt).1 = min (2 * dt) g.storedBile_mL ∧
    (g.releaseBile dt).2.storedBile_mL
      = g.storedBile_mL - min (2 * dt) g.storedBile_mL ∧
    0 ≤ (g.releaseBile dt).2.storedBile_mL ∧
    (g.releaseBile dt).2.bileConcentrationFactor
      = g.bileConcentrationFactor ∧
    (g.releaseBile dt).2.bileReleaseRate_ml_per_s
      = g.bileReleaseRate_ml_per_s)

/-- The C4 property text, as a predicate over the state and amount. -/
def AddUrineSpec (b : Bladder) (amount : ℚ) : Prop :=
  (b.currentState = .VOIDING → b.addUrine amount = b) ∧
  (b.currentState ≠ .VOIDING →
    (b.addUrine amount).currentState = b.currentState ∧
    (b.addUrine amount).currentVolume_mL
      = clampQ (b.currentVolume_mL + amount) 0 Bladder.capacity_mL ∧
    (b.addUrine amount).currentVolume_mL ≤ 500 ∧
    (0 ≤ b.currentVolume_mL →
      (b.addUrine amount).currentVolume_mL
        = min (b.currentVolume_mL + amount) 500 ∧
      (b.currentVolume_mL ≤ 500 →
        b.currentVolume_mL ≤ (b.addUrine amount).currentVolume_mL)))

/-- The C10 property text, as a predicate over the state and packet. -/
def ReceiveEnzymesSpec (i : Intestines) (e : DigestiveEnzymes) : Prop :=
  (e.volume_mL ≤ 0 → i.receiveEnzymes e = i) ∧
  (0 < e.volume_mL →
    0 < i.enzymeVolume_mL + e.volume_mL ∧
    (i.receiveEnzymes e).enzymeVolume_mL
      = i.enzymeVolume_mL + e.volume_mL ∧
    (i.receiveEnzymes e).amylase_U_per_L
      = (i.amylase_U_per_L * i.enzymeVolume_mL
          + e.amylase_U_per_L * e.volume_mL)
        / (i.enzymeVolume_mL + e.volume_mL) ∧
    (i.receiveEnzymes e).lipase_U_per_L
      = (i.lipase_U_per_L * i.enzymeVolume_mL
          + e.lipase_U_per_L * e.volume_mL)
        / (i.enzymeVolume_mL + e.volume_mL) ∧
    (i.receiveEnzymes e).chymeVolume_mL = i.chymeVolume_mL ∧
    (i.receiveEnzymes e).bileVolume_mL = i.bileVolume_mL)

/-- Repeated `Brain::update` ticks on a patient containing no Heart (one
noise bundle per tick; blood and the optional Lungs thread through, as the
brain writes its respiration target into the lungs each tick). -/
def brainRun (sinPiQ expQ : ℚ → ℚ) (spinal? : Option SpinalCord) (dt : ℚ) :
    List BrainNoise → Option Lungs → Blood → Brain →
      Brain × Blood × Option Lungs
  | [], lungs?, blood, b => (b, blood, lungs?)
  | noise :: rest, lungs?, blood, b =>
      let step := Brain.update sinPiQ expQ noise none spinal? lungs? blood
        b dt
      brainRun sinPiQ expQ spinal? dt rest step.2.2.1 step.2.1 step.1

/-- The C7 property text for one update of each waveform-producing organ:
every history buffer holds at most 200 samples afterwards, and the sample
computed during that update sits at the front. -/
def WaveformBuffersSpec (sinPiQ expQ : ℚ → ℚ) (hn : HeartNoise)
    (bn : BrainNoise) (gn : LungsNoise) (heart? : Option Heart)
    (spinal? : Option SpinalCord) (lungs? : Option Lungs)
    (bloodH bloodB bloodL : Blood) (hrt : Heart) (br : Brain) (lg : Lungs)
    (dt : ℚ) : Prop :=
  (∀ lead ∈ (Heart.update sinPiQ expQ hn bloodH hrt dt).1.ekgData,
    lead.length ≤ 200) ∧
  (∀ j lead,
    ((Heart.update sinPiQ expQ hn bloodH hrt dt).1.ekgData)[j]? = some lead →
    lead.head?
      = some (Heart.simulateEkgWaveform expQ (hrt.timeInCycleAfter hn dt)
          * leadModifier j)) ∧
  (Brain.update sinPiQ expQ bn heart? spinal? lungs? bloodB br
      dt).1.eegData.length ≤ 200 ∧
  (Brain.update sinPiQ expQ bn heart? spinal? lungs? bloodB br
      dt).1.eegData.head?
    = some (Brain.generateEegValue sinPiQ bn.eegFluct
        (br.totalTime_s + dt)) ∧
  (Lungs.update sinPiQ gn bloodL lg dt).1.capnographyData.length ≤ 200 ∧
  (Lungs.update sinPiQ gn bloodL lg dt).1.capnographyData.head?
    = some ((lg.prePushState sinPiQ gn dt).generateCapnographyValue
        gn.capnoFluct)

/-! ## Theorems -/

theorem applyOrganCalls_log {σ : Type} (dt : ℚ) (calls : List ℕ) :
    ∀ p : SpecPatient σ (List ℕ),
    (applyOrganCalls (fun i q _ => { q with blood := q.blood ++ [i] }) dt
        calls p).blood = p.blood ++ calls ∧
    (applyOrganCalls (fun i q _ => { q with blood := q.blood ++ [i] }) dt
        calls p).organs = p.organs := by
  induction calls with
  | nil => intro p; exact ⟨by simp [applyOrganCalls], rfl⟩
  | cons i rest ih =>
      intro p
      have h := ih { p with blood := p.blood ++ [i] }
      constructor
      · rw [applyOrganCalls, h.1]
        simp
      · rw [applyOrganCalls, h.2]

/-- C1: `updatePatient(patient, dt)` performs exactly one
`update(patient, dt)` call per organ of the patient's collection, in
registration order: instantiating the driver with an update action that
appends the visited organ index to the shared record shows the visited
sequence is `[0, 1, ..., organs.length - 1]` and no organ is added,
dropped or reordered. -/
theorem updatePatient_updates_each_organ_in_order {σ : Type}
    (p : SpecPatient σ (List ℕ)) (dt : ℚ) :
    (specUpdatePatient (fun i q _ => { q with blood := q.blood ++ [i] }) p
        dt).blood = p.blood ++ List.range p.organs.length ∧
    (specUpdatePatient (fun i q _ => { q with blood := q.blood ++ [i] }) p
        dt).organs = p.organs := by
  unfold specUpdatePatient
  exact applyOrganCalls_log dt (List.range p.organs.length) p

/-- C3: for `dt > 0`, `Gallbladder::releaseBile(dt)` on stored volume 0
returns exactly 0 and leaves every field (state included) unchanged; on
stored volume `v > 0` it enters CONTRACTING, returns
`min(2.0 * dt, v)` (with the fixed release rate 2.0 mL/s of the
constructor) and subtracts that amount, so the volume stays nonnegative. -/
theorem gallbladder_releaseBile_correct (g : Gallbladder) (dt : ℚ)
    (hdt : 0 < dt) (hrate : g.bileReleaseRate_ml_per_s = 2) :
    ReleaseBileSpec g dt := by
  constructor
  · intro h0
    simp [Gallbladder.releaseBile, h0]
  · intro hpos
    have hcond : ¬g.storedBile_mL ≤ 0 := not_le.mpr hpos
    simp only [Gallbladder.releaseBile, if_neg hcond, hrate]
    refine ⟨by trivial, by trivial, by trivial, ?_, by trivial, by trivial⟩
    have : min (2 * dt) g.storedBile_mL ≤ g.storedBile_mL := min_le_right _ _
    linarith

/-- C3 witness: the theorem applied to a fresh gallbladder and `dt = 1`. -/
theorem gallbladder_releaseBile_correct_witness :
    (0 : ℚ) < 1 ∧ Gallbladder.init.bileReleaseRate_ml_per_s = 2 ∧
    ReleaseBileSpec Gallbladder.init 1 :=
  ⟨by norm_num, rfl,
    gallbladder_releaseBile_correct Gallbladder.init 1 (by norm_num) rfl⟩

/-- C4: for `amount > 0`, `Bladder::addUrine(amount)` leaves everything
unchanged while VOIDING; otherwise the state is untouched and the volume
becomes the old volume plus `amount`, clamped so it never exceeds the
500 mL capacity — hence repeated `addUrine` while FILLING is monotonically
non-decreasing in volume. -/
theorem bladder_addUrine_correct (b : Bladder) (amount : ℚ)
    (hpos : 0 < amount) : AddUrineSpec b amount := by
  constructor
  · intro hv
    simp [Bladder.addUrine, hv]
  · intro hnv
    simp only [Bladder.addUrine, if_pos hnv]
    refine ⟨by trivial, by trivial, ?_, ?_⟩
    · exact clampQ_le_hi _ _ _ (by norm_num [Bladder.capacity_mL])
    · intro hvol
      have hmin : (0 : ℚ) ≤ min (b.currentVolume_mL + amount) 500 :=
        le_min (by linarith) (by norm_num)
      have hclamp : clampQ (b.currentVolume_mL + amount) 0 Bladder.capacity_mL
          = min (b.currentVolume_mL + amount) 500 := by
        simp only [clampQ, Bladder.capacity_mL]
        exact max_eq_right hmin
      refine ⟨hclamp, ?_⟩
      intro hcap
      rw [hclamp]
      exact le_min (by linarith) hcap

/-- C4 witness: the theorem applied to a fresh bladder and `amount = 25`. -/
theorem bladder_addUrine_correct_witness :
    (0 : ℚ) < 25 ∧ AddUrineSpec Bladder.init 25 :=
  ⟨by norm_num, bladder_addUrine_correct Bladder.init 25 (by norm_num)⟩

/-- C5: for every prior state and volume, `Stomach::addSubstance(volume)`
leaves the stomach FILLING with pH `min(4.0, old pH + 0.5)` (so the pH
never exceeds the buffered cap 4.0 immediately afterwards), and the
volume grows by the added amount. -/
theorem stomach_addSubstance_correct (s : Stomach) (volume_mL : ℚ) :
    (s.addSubstance volume_mL).currentState = .FILLING ∧
    (s.addSubstance volume_mL).currentPh = min 4 (s.currentPh + 0.5) ∧
    (s.addSubstance volume_mL).currentPh ≤ 4 ∧
    (s.addSubstance volume_mL).currentVolume_mL
      = s.currentVolume_mL + volume_mL :=
  ⟨rfl, rfl, min_le_left _ _, rfl⟩

/-- C8: in `Kidneys::update` the pressure modifier is exactly 1 when no
Heart is present — so the GFR relaxes toward `125 × capacity` — and equals
the Heart's aortic pressure over 90, clamped to [0.5, 1.2], when one is;
the update is total and the heart-absent GFR follows the stated relaxation
exactly. -/
theorem kidneys_pressure_modifier_correct (expQ : ℚ → ℚ)
    (noise : KidneysNoise) (bladder? : Option Bladder) (blood : Blood)
    (k : Kidneys) (dt : ℚ) :
    kidneysPressureModifier (kidneysPerfusionPressure expQ none) = 1 ∧
    (∀ hrt : Heart,
      kidneysPressureModifier (kidneysPerfusionPressure expQ (some hrt))
        = clampQ (hrt.getAorticPressure expQ / 90) 0.5 1.2) ∧
    (Kidneys.update expQ noise none bladder? blood k dt).1.gfr_mL_per_min
      = clampQ (k.gfr_mL_per_min
          + 0.1 * (125 * Kidneys.computeCapacity k.nephrons
            - k.gfr_mL_per_min) * dt + noise.gfrFluct) 90 150 := by
  have hmod : kidneysPressureModifier (kidneysPerfusionPressure expQ none)
      = 1 := by
    norm_num [kidneysPressureModifier, kidneysPerfusionPressure, clampQ,
      min_def, max_def]
  refine ⟨hmod, fun hrt => rfl, ?_⟩
  simp only [Kidneys.update, hmod, mul_one]

/-- C9: `Heart::setHeartRate` stores any supplied value (zero and negative
included) with no validation, and `Heart::update`'s cycle duration is the
division `60 / heartRate`, which under a strictly positive rate is a
positive quantity genuinely inverting the rate. -/
theorem heart_setHeartRate_unvalidated (h : Heart) (newRate_bpm : ℚ)
    (rate : ℚ) (hpos : 0 < rate) :
    (h.setHeartRate newRate_bpm).heartRate = newRate_bpm ∧
    cardiacCycleDuration rate = 60 / rate ∧
    0 < cardiacCycleDuration rate ∧
    cardiacCycleDuration rate * rate = 60 := by
  refine ⟨rfl, rfl, div_pos (by norm_num) hpos, ?_⟩
  unfold cardiacCycleDuration
  field_simp

/-- C9 witness: a negative rate is stored verbatim; at the baseline rate 75
the cycle division is well-defined. -/
theorem heart_setHeartRate_unvalidated_witness :
    (0 : ℚ) < 75 ∧
    (((Heart.init 12).setHeartRate (-5)).heartRate = -5 ∧
      cardiacCycleDuration 75 = 60 / 75 ∧
      0 < cardiacCycleDuration 75 ∧
      cardiacCycleDuration 75 * 75 = 60) :=
  ⟨by norm_num,
    heart_setHeartRate_unvalidated (Heart.init 12) (-5) 75 (by norm_num)⟩

/-- C10: `Intestines::receiveEnzymes` returns immediately, all enzyme state
unchanged, when the packet volume is ≤ 0; for positive packet volume the
stored concentrations become the volume-weighted averages of old and
incoming, and (given the code's nonnegative enzyme-volume invariant) the
divisor `old volume + packet volume` is strictly positive. -/
theorem intestines_receiveEnzymes_correct (i : Intestines)
    (e : DigestiveEnzymes) (hinv : 0 ≤ i.enzymeVolume_mL) :
    ReceiveEnzymesSpec i e := by
  constructor
  · intro hle
    simp [Intestines.receiveEnzymes, hle]
  · intro hpos
    have hcond : ¬e.volume_mL ≤ 0 := not_le.mpr hpos
    simp only [Intestines.receiveEnzymes, if_neg hcond]
    exact ⟨by linarith, by trivial, by trivial, by trivial, by trivial,
      by trivial⟩

/-- C10 witness: the theorem applied to fresh intestines and a 10 mL packet. -/
theorem intestines_receiveEnzymes_correct_witness :
    (0 : ℚ) ≤ Intestines.init.enzymeVolume_mL ∧
    ReceiveEnzymesSpec Intestines.init ⟨10, 100, 50⟩ :=
  ⟨by norm_num [Intestines.init],
    intestines_receiveEnzymes_correct Intestines.init ⟨10, 100, 50⟩
      (by norm_num [Intestines.init])⟩

/-- C2 evidence: the EDV/ESV capture guards in `Heart::update` are nested
inside branches that contradict them (`timeInCycle < 0.15` around
`timeInCycle >= 0.15`, and `timeInCycle < 0.5` around
`timeInCycle >= 0.5`), so no update step ever captures a boundary volume
or recomputes the ejection fraction: after any step they all equal their
previous values (hence `getEjectionFraction()` returns the constructor's
0.55 forever, not `(EDV−ESV)/EDV` of captured boundary volumes). -/
theorem heart_ejection_fraction_never_recomputed (sinPiQ expQ : ℚ → ℚ)
    (noise : HeartNoise) (blood : Blood) (h : Heart) (dt : ℚ) :
    (Heart.update sinPiQ expQ noise blood h dt).1.ejectionFraction
      = h.ejectionFraction ∧
    (Heart.update sinPiQ expQ noise blood h
        dt).1.leftVentricle.endDiastolicVolume_mL
      = h.leftVentricle.endDiastolicVolume_mL ∧
    (Heart.update sinPiQ expQ noise blood h
        dt).1.leftVentricle.endSystolicVolume_mL
      = h.leftVentricle.endSystolicVolume_mL := by
  simp only [Heart.update]
  refine ⟨?_, ?_, ?_⟩ <;>
    · split_ifs <;> first
        | rfl
        | (exfalso; omega)
        | (exfalso
           rename_i hcond
           try obtain ⟨⟨hc1, hc2⟩, hc3, hc4⟩ := hcond
           try obtain ⟨hc1, hc2⟩ := hcond
           linarith)

theorem brain_update_map_clamped (sinPiQ expQ : ℚ → ℚ) (noise : BrainNoise)
    (spinal? : Option SpinalCord) (lungs? : Option Lungs) (blood : Blood)
    (b : Brain) (dt : ℚ) :
    85 ≤ (Brain.update sinPiQ expQ noise none spinal? lungs? blood b
        dt).1.meanArterialPressure_mmHg ∧
    (Brain.update sinPiQ expQ noise none spinal? lungs? blood b
        dt).1.meanArterialPressure_mmHg ≤ 95 := by
  have hmap : (Brain.update sinPiQ expQ noise none spinal? lungs? blood b
      dt).1.meanArterialPressure_mmHg
        = clampQ (b.meanArterialPressure_mmHg + noise.mapFluct) 85 95 := by
    simp only [Brain.update, Brain.updateActivity, Brain.updatePressures,
      Brain.updateAutonomicControl, Brain.updateGCS]
  rw [hmap]
  exact ⟨lo_le_clampQ _ _ _, clampQ_le_hi _ _ _ (by norm_num)⟩

/-- C6: with no Heart in the patient's organ collection, the Brain's mean
arterial pressure lies within [85, 95] after every `Brain::update` call of
any nonempty sequence of updates, for every time step and noise draw
(the random-walk clamp holds). -/
theorem brain_map_in_band_without_heart (sinPiQ expQ : ℚ → ℚ)
    (spinal? : Option SpinalCord) (dt : ℚ) (noises : List BrainNoise)
    (lungs? : Option Lungs) (blood : Blood) (b : Brain)
    (hne : noises ≠ []) :
    85 ≤ (brainRun sinPiQ expQ spinal? dt noises lungs? blood
        b).1.meanArterialPressure_mmHg ∧
    (brainRun sinPiQ expQ spinal? dt noises lungs? blood
        b).1.meanArterialPressure_mmHg ≤ 95 := by
  obtain ⟨noise, rest, rfl⟩ := List.exists_cons_of_ne_nil hne
  clear hne
  induction rest generalizing noise lungs? blood b with
  | nil =>
      simpa only [brainRun] using
        brain_update_map_clamped sinPiQ expQ noise spinal? lungs? blood b dt
  | cons noise2 rest2 ih =>
      simp only [brainRun]
      exact ih _ _ _ noise2

/-- C6 witness: one update of a fresh heartless brain with zeroed noise. -/
theorem brain_map_in_band_without_heart_witness :
    ([(⟨0, 0, 0, 0⟩ : BrainNoise)] ≠ []) ∧
    (85 ≤ (brainRun (fun _ => 0) (fun _ => 0) none 0.1
        [⟨0, 0, 0, 0⟩] none Blood.init Brain.init).1.meanArterialPressure_mmHg ∧
      (brainRun (fun _ => 0) (fun _ => 0) none 0.1
        [⟨0, 0, 0, 0⟩] none Blood.init
          Brain.init).1.meanArterialPressure_mmHg ≤ 95) :=
  ⟨List.cons_ne_nil _ _,
    brain_map_in_band_without_heart (fun _ => 0) (fun _ => 0) none 0.1
      [⟨0, 0, 0, 0⟩] none Blood.init Brain.init (List.cons_ne_nil _ _)⟩

theorem pushEkg_length (cap : ℕ) (v : ℚ) (leads : List (List ℚ)) :
    ∀ i : ℕ, (pushEkg cap v i leads).length = leads.length := by
  induction leads with
  | nil => intro i; rfl
  | cons lead rest ih => intro i; simp [pushEkg, ih (i + 1)]

theorem pushEkg_bounded (cap : ℕ) (v : ℚ) (leads : List (List ℚ))
    (hb : ∀ l ∈ leads, l.length ≤ cap) :
    ∀ i : ℕ, ∀ l ∈ pushEkg cap v i leads, l.length ≤ cap := by
  induction leads with
  | nil => intro i l hl; cases hl
  | cons lead rest ih =>
      intro i l hl
      simp only [pushEkg, List.mem_cons] at hl
      rcases hl with rfl | hl
      · exact pushHistory_length_le cap _ lead (hb lead (by simp))
      · exact ih (fun x hx => hb x (by simp [hx])) (i + 1) l hl

theorem pushEkg_head (cap : ℕ) (v : ℚ) (hcap : 1 ≤ cap)
    (leads : List (List ℚ)) :
    ∀ i0 j lead, (pushEkg cap v i0 leads)[j]? = some lead →
      lead.head? = some (v * leadModifier (i0 + j)) := by
  induction leads with
  | nil => intro i0 j lead h; simp [pushEkg] at h
  | cons l0 rest ih =>
      intro i0 j lead h
      cases j with
      | zero =>
          simp only [pushEkg, List.getElem?_cons_zero, Option.some.injEq]
            at h
          subst h
          simpa using pushHistory_head cap (v * leadModifier i0) l0 hcap
      | succ j2 =>
          simp only [pushEkg, List.getElem?_cons_succ] at h
          have hrec := ih (i0 + 1) j2 lead h
          have harith : i0 + 1 + j2 = i0 + (j2 + 1) := by omega
          rwa [harith] at hrec

theorem heart_update_ekgData (sinPiQ expQ : ℚ → ℚ) (hn : HeartNoise)
    (bloodH : Blood) (hrt : Heart) (dt : ℚ) :
    (Heart.update sinPiQ expQ hn bloodH hrt dt).1.ekgData
      = pushEkg hrt.ekgHistorySize
          (Heart.simulateEkgWaveform expQ (hrt.timeInCycleAfter hn dt)) 0
          hrt.ekgData := rfl

theorem brain_update_eegData (sinPiQ expQ : ℚ → ℚ) (bn : BrainNoise)
    (heart? : Option Heart) (spinal? : Option SpinalCord)
    (lungs? : Option Lungs) (bloodB : Blood) (br : Brain) (dt : ℚ) :
    (Brain.update sinPiQ expQ bn heart? spinal? lungs? bloodB br
        dt).1.eegData
      = pushHistory br.eegHistorySize
          (Brain.generateEegValue sinPiQ bn.eegFluct (br.totalTime_s + dt))
          br.eegData := rfl

theorem lungs_update_capnographyData (sinPiQ : ℚ → ℚ) (gn : LungsNoise)
    (bloodL : Blood) (lg : Lungs) (dt : ℚ) :
    (Lungs.update sinPiQ gn bloodL lg dt).1.capnographyData
      = pushHistory lg.capnographyHistorySize
          ((lg.prePushState sinPiQ gn dt).generateCapnographyValue
            gn.capnoFluct)
          lg.capnographyData := rfl

/-- C7: after one update of each waveform-producing organ, every history
buffer (each Heart EKG lead, the Brain EEG, the Lungs capnography) holds at
most its configured 200 samples, and the sample computed during that update
is at the buffer's front (scaled per EKG lead by the index attenuation
ladder). -/
theorem waveform_buffers_bounded_and_fresh (sinPiQ expQ : ℚ → ℚ)
    (hn : HeartNoise) (bn : BrainNoise) (gn : LungsNoise)
    (heart? : Option Heart) (spinal? : Option SpinalCord)
    (lungs? : Option Lungs) (bloodH bloodB bloodL : Blood) (hrt : Heart)
    (br : Brain) (lg : Lungs) (dt : ℚ)
    (h1 : hrt.ekgHistorySize = 200)
    (h2 : ∀ lead ∈ hrt.ekgData, lead.length ≤ 200)
    (h3 : br.eegHistorySize = 200) (h4 : br.eegData.length ≤ 200)
    (h5 : lg.capnographyHistorySize = 200)
    (h6 : lg.capnographyData.length ≤ 200) :
    WaveformBuffersSpec sinPiQ expQ hn bn gn heart? spinal? lungs? bloodH
      bloodB bloodL hrt br lg dt := by
  unfold WaveformBuffersSpec
  refine ⟨?_, ?_, ?_, ?_, ?_, ?_⟩
  · simp only [heart_update_ekgData, h1]
    exact pushEkg_bounded 200 _ hrt.ekgData h2 0
  · simp only [heart_update_ekgData, h1]
    intro j lead hlead
    simpa using pushEkg_head 200 _ (by norm_num) hrt.ekgData 0 j lead hlead
  · rw [brain_update_eegData, h3]
    exact pushHistory_length_le 200 _ _ h4
  · rw [brain_update_eegData, h3]
    exact pushHistory_head 200 _ _ (by norm_num)
  · rw [lungs_update_capnographyData, h5]
    exact pushHistory_length_le 200 _ _ h6
  · rw [lungs_update_capnographyData, h5]
    exact pushHistory_head 200 _ _ (by norm_num)

/-- C7 witness: the theorem applied to freshly constructed organs (empty
buffers of configured capacity 200) with zeroed noise and oracles. -/
theorem waveform_buffers_bounded_and_fresh_witness :
    ((Heart.init 12).ekgHistorySize = 200 ∧
      (∀ lead ∈ (Heart.init 12).ekgData, lead.length ≤ 200) ∧
      Brain.init.eegHistorySize = 200 ∧ Brain.init.eegData.length ≤ 200 ∧
      Lungs.init.capnographyHistorySize = 200 ∧
      Lungs.init.capnographyData.length ≤ 200) ∧
    WaveformBuffersSpec (fun _ => 0) (fun _ => 0) ⟨0⟩ ⟨0, 0, 0, 0⟩
      ⟨0, 0, 0⟩ none none none Blood.init Blood.init Blood.init
      (Heart.init 12) Brain.init Lungs.init 0.1 :=
  ⟨⟨rfl, by decide, rfl, by decide, rfl, by decide⟩,
    waveform_buffers_bounded_and_fresh (fun _ => 0) (fun _ => 0) ⟨0⟩
      ⟨0, 0, 0, 0⟩ ⟨0, 0, 0⟩ none none none Blood.init Blood.init
      Blood.init (Heart.init 12) Brain.init Lungs.init 0.1 rfl (by decide)
      rfl (by decide) rfl (by decide)⟩

end MedicalLib
